import Mathlib

/-!
Shallow embedding of the storage abstraction layer of the
o1-labs/mina-on-chain-voting server (`src/server/src/storage/`):
the provider contract (mod.rs), the GCS adapter (gcs.rs), the AWS S3
adapter (aws_s3.rs) and the provider factory (factory.rs).

Modelling conventions:
* The async HTTP/SDK layer is abstracted into explicit response oracles
  passed to each operation: the anonymous GCS listing loop receives
  `pages : Nat → PageOutcome`, mapping the ordinal of each issued page
  request to the remote store's response; single-shot calls receive one
  outcome value.  Request-URL construction (and hence the URL-encoding of
  the optional name filter and the continuation token) is absorbed into
  these oracles, since no response in the model depends on the URL text.
* Errors are `anyhow` strings in the source; here each distinct `anyhow!`
  call site becomes one constructor of a structured error type whose
  `message` function reproduces that site's format string.  Call sites
  that share a format string verbatim share a constructor.
* Each operation also returns the number of remote requests it issued,
  so that "without performing any network call" is a statement about the
  model rather than a side remark.
* Machine integers (HTTP status codes, counters) are `Nat`; byte bodies
  are `List UInt8`.
-/

/-- Character-list helper for `strContains`: does the second list start
with the first? (Models byte-wise comparison of Rust `str` values.) -/
def listHasPre : List Char → List Char → Bool
  | [], _ => true
  | _ :: _, [] => false
  | a :: as, b :: bs => a == b && listHasPre as bs

/-- Does the second list contain the first as a contiguous run?
Models Rust `str::contains` used by gcs.rs to classify SDK errors, and
used in the theorems below to state message-content properties. -/
def listHasSub (p : List Char) : List Char → Bool
  | [] => listHasPre p []
  | b :: bs => listHasPre p (b :: bs) || listHasSub p bs

/-- `strContains s pat` holds when `pat` occurs inside `s`. -/
def strContains (s pat : String) : Bool :=
  listHasSub pat.data s.data

/-- `http::StatusCode::is_client_error`: true exactly on 400..=499. -/
def isClientError (status : Nat) : Bool :=
  400 ≤ status && status < 500

/-- Rust formats a `StatusCode` with `{}` as the numeral followed by the
canonical reason phrase; the model keeps the numeral, which is the part
the claims reference ("carrying the raw HTTP status"). -/
def statusDisplay (status : Nat) : String :=
  toString status

/-- gcs.rs `GcsObject`: one listing entry of the GCS JSON API. -/
structure GcsObject where
  name : String
deriving DecidableEq

/-- gcs.rs `GcsListResponse`: parsed body of one listing page,
`{ items: [{name}] | absent, nextPageToken: string | absent }`. -/
structure GcsListResponse where
  items : Option (List GcsObject)
  next_page_token : Option String
deriving DecidableEq

/-- gcs.rs `GcsClient`: the access mode fixed at construction.  The
wrapped `google_cloud_storage::Client` / `reqwest::Client` values carry
no state the model observes; their behaviour enters through the response
oracles passed to each operation. -/
inductive GcsClient where
  | Authenticated
  | Anonymous
deriving DecidableEq

/-- gcs.rs `GcsProvider`. -/
structure GcsProvider where
  client : GcsClient
  project_id : String
deriving DecidableEq

/-- gcs.rs `GcsProvider::new`.  `discovery` is the outcome of
`ClientConfig::default().with_auth()` (ambient credential discovery);
the source runs the same discovery whether or not a service-account key
path was supplied, and falls back to an anonymous HTTP client on any
discovery error.  Construction is total: no discovery outcome makes it
fail (the Rust function only ever returns `Ok`). -/
def GcsProvider.new (project_id : String) (service_account_key_path : Option String)
    (discovery : Except String Unit) : GcsProvider :=
  match service_account_key_path with
  | some _ =>
    match discovery with
    | .ok _ => { client := .Authenticated, project_id := project_id }
    | .error _ => { client := .Anonymous, project_id := project_id }
  | none =>
    match discovery with
    | .ok _ => { client := .Authenticated, project_id := project_id }
    | .error _ => { client := .Anonymous, project_id := project_id }

/-- One structured error per `anyhow!` call site of gcs.rs. -/
inductive GcsError where
  | emptyBucketName
  | listAuthRequiredAuthMode (bucket err : String)
  | listAuthRequired (bucket : String)
  | listBucketNotFound (bucket : String)
  | listFailed (bucket err : String)
  | listHttpError (bucket : String) (status : Nat)
  | listParseFailed (bucket err : String)
  | getAuthRequiredAuthMode (key bucket err : String)
  | getAuthRequired (key bucket : String)
  | getDownloadFailed (key bucket err : String)
  | getHttpError (key bucket : String) (status : Nat)
  | getReadFailed (key bucket err : String)
deriving DecidableEq

/-- The exact `anyhow!` format string of each gcs.rs error site. -/
def GcsError.message : GcsError → String
  | .emptyBucketName =>
    "GCS bucket name cannot be empty. Please check your BUCKET_NAME environment variable."
  | .listAuthRequiredAuthMode bucket err =>
    "GCS bucket '" ++ bucket ++ "' requires authentication. Please set GCS_PROJECT_ID and optionally GCS_SERVICE_ACCOUNT_KEY_PATH environment variables. Error: " ++ err
  | .listAuthRequired bucket =>
    "GCS bucket '" ++ bucket ++ "' requires authentication. Please set GCS_PROJECT_ID and optionally GCS_SERVICE_ACCOUNT_KEY_PATH environment variables."
  | .listBucketNotFound bucket =>
    "GCS bucket '" ++ bucket ++ "' not found. Please check the bucket name and project configuration."
  | .listFailed bucket err =>
    "Failed to list objects in GCS bucket '" ++ bucket ++ "': " ++ err
  | .listHttpError bucket status =>
    "Failed to access GCS bucket '" ++ bucket ++ "': HTTP " ++ statusDisplay status
  | .listParseFailed bucket err =>
    "Failed to parse GCS response for bucket '" ++ bucket ++ "': " ++ err
  | .getAuthRequiredAuthMode key bucket err =>
    "GCS object '" ++ key ++ "' in bucket '" ++ bucket ++ "' requires authentication. Please set GCS_PROJECT_ID and optionally GCS_SERVICE_ACCOUNT_KEY_PATH environment variables. Error: " ++ err
  | .getAuthRequired key bucket =>
    "GCS object '" ++ key ++ "' in bucket '" ++ bucket ++ "' requires authentication. Please set GCS_PROJECT_ID and optionally GCS_SERVICE_ACCOUNT_KEY_PATH environment variables."
  | .getDownloadFailed key bucket err =>
    "Failed to download object '" ++ key ++ "' from GCS bucket '" ++ bucket ++ "': " ++ err
  | .getHttpError key bucket status =>
    "Failed to access GCS object '" ++ key ++ "' in bucket '" ++ bucket ++ "': HTTP " ++ statusDisplay status
  | .getReadFailed key bucket err =>
    "Failed to read object '" ++ key ++ "' from GCS bucket '" ++ bucket ++ "': " ++ err

/-- Modelled from the spec: §7 taxonomy ("AccessDenied (authorization
failure; carries remediation text)").  The source returns untyped anyhow
errors, so the class is identified with the authentication-remediation
call sites. -/
def GcsError.isAccessDeniedClass : GcsError → Bool
  | .listAuthRequiredAuthMode _ _ => true
  | .listAuthRequired _ => true
  | .getAuthRequiredAuthMode _ _ _ => true
  | .getAuthRequired _ _ => true
  | _ => false

/-- Modelled from the spec: §7 taxonomy ("NotFound (bucket or object
does not exist)").  The only gcs.rs site whose message reports a missing
remote entity is the listing bucket-not-found site. -/
def GcsError.isNotFoundClass : GcsError → Bool
  | .listBucketNotFound _ => true
  | _ => false

/-- Modelled from the spec: §7 taxonomy ("ConfigurationError: bad or
missing required input, detected before any network call").  In gcs.rs
that is exactly the empty-bucket-name validation site. -/
def GcsError.isConfigurationErrorClass : GcsError → Bool
  | .emptyBucketName => true
  | _ => false

/-- Remote-store response to one anonymous-mode page request:
either the send itself failed (transport), or a response arrived with an
HTTP status and a body whose JSON parse succeeds or fails. -/
inductive PageOutcome where
  | sendFailure (err : String)
  | response (status : Nat) (body : Except String GcsListResponse)

/-- gcs.rs anonymous-mode listing loop (`GcsClient::Anonymous` arm of
`GcsProvider::list_objects`), translated statement by statement.
`pages n` is the remote response to the request issued with `page_count
= n`; the continuation token parameter feeds only URL construction,
which the oracle absorbs.  Returns the result together with the total
number of page requests issued. -/
def anonListLoop (pages : Nat → PageOutcome) (bucket : String)
    (pageCount : Nat) (pageToken : Option String) (allObjects : List String) :
    Except GcsError (List String) × Nat :=
  match pages pageCount with
  | .sendFailure err => (.error (.listFailed bucket err), pageCount + 1)
  | .response status body =>
    if isClientError status then
      if status == 401 || status == 403 then
        (.error (.listAuthRequired bucket), pageCount + 1)
      else if status == 404 then
        (.error (.listBucketNotFound bucket), pageCount + 1)
      else
        (.error (.listHttpError bucket status), pageCount + 1)
    else
      match body with
      | .error err => (.error (.listParseFailed bucket err), pageCount + 1)
      | .ok listResponse =>
        let allObjects' :=
          match listResponse.items with
          | some items => allObjects ++ items.map GcsObject.name
          | none => allObjects
        if h : listResponse.next_page_token.isNone = true ∨ 10 ≤ pageCount + 1 then
          (.ok allObjects', pageCount + 1)
        else
          anonListLoop pages bucket (pageCount + 1) listResponse.next_page_token allObjects'
termination_by 10 - pageCount
decreasing_by
  push_neg at h
  omega

/-- gcs.rs `GcsProvider::list_objects`.  `authList` is the outcome of
the authenticated client's single `list_objects` call (its `items`
field); `pages` is the anonymous-mode page oracle.  The `pfx` filter
only shapes request URLs and is absorbed by the oracles. -/
def GcsProvider.list_objects (provider : GcsProvider) (bucket : String) (pfx : Option String)
    (authList : Except String (Option (List GcsObject)))
    (pages : Nat → PageOutcome) : Except GcsError (List String) × Nat :=
  if bucket.isEmpty then (.error .emptyBucketName, 0)
  else
    match provider.client with
    | .Authenticated =>
      match authList with
      | .error err =>
        if strContains err "401" || strContains err "403" then
          (.error (.listAuthRequiredAuthMode bucket err), 1)
        else if strContains err "404" then
          (.error (.listBucketNotFound bucket), 1)
        else
          (.error (.listFailed bucket err), 1)
      | .ok items => (.ok ((items.getD []).map GcsObject.name), 1)
    | .Anonymous => anonListLoop pages bucket 0 none []

/-- Remote-store response to the anonymous-mode media-download request:
either the send failed, or a response arrived with an HTTP status and a
body whose byte read succeeds or fails. -/
inductive GetOutcome where
  | sendFailure (err : String)
  | response (status : Nat) (body : Except String (List UInt8))

/-- gcs.rs `GcsProvider::get_object`.  `authGet` is the outcome of the
authenticated client's `download_object` call; `anonGet` the response to
the anonymous direct-media request. -/
def GcsProvider.get_object (provider : GcsProvider) (bucket key : String)
    (authGet : Except String (List UInt8)) (anonGet : GetOutcome) :
    Except GcsError (List UInt8) × Nat :=
  if bucket.isEmpty then (.error .emptyBucketName, 0)
  else
    match provider.client with
    | .Authenticated =>
      match authGet with
      | .error err =>
        if strContains err "401" || strContains err "403" then
          (.error (.getAuthRequiredAuthMode key bucket err), 1)
        else
          (.error (.getDownloadFailed key bucket err), 1)
      | .ok bytes => (.ok bytes, 1)
    | .Anonymous =>
      match anonGet with
      | .sendFailure err => (.error (.getDownloadFailed key bucket err), 1)
      | .response status body =>
        if isClientError status then
          if status == 401 || status == 403 then
            (.error (.getAuthRequired key bucket), 1)
          else
            (.error (.getHttpError key bucket status), 1)
        else
          match body with
          | .error err => (.error (.getReadFailed key bucket err), 1)
          | .ok bytes => (.ok bytes, 1)

/-- gcs.rs `StorageProvider::provider_name` for `GcsProvider`. -/
def GcsProvider.provider_name (_provider : GcsProvider) : String :=
  "Google Cloud Storage"

/-- aws_s3.rs: one entry of an S3 `ListObjectsV2` response; the SDK
types the key as optional. -/
structure S3Object where
  key : Option String
deriving DecidableEq

/-- aws_s3.rs: the `contents` field of an S3 `ListObjectsV2` response. -/
structure ListObjectsV2Response where
  contents : Option (List S3Object)
deriving DecidableEq

/-- aws_s3.rs `AwsS3Provider`: a client bound to a region at
construction; like the GCS client, its behaviour enters through the
response oracle passed to each operation. -/
structure AwsS3Provider where
  region : String
deriving DecidableEq

/-- aws_s3.rs `AwsS3Provider::new`: builds the client configuration
from the region; no network call, no failure path exercised. -/
def AwsS3Provider.new (region : String) : AwsS3Provider :=
  { region := region }

/-- aws_s3.rs `AwsS3Provider::list_objects`: issues the SDK request
unconditionally (there is no bucket-name validation), propagates SDK
errors unmodified, and flattens `contents` by `filter_map` over the
optional keys. -/
def AwsS3Provider.list_objects (_provider : AwsS3Provider) (_bucket : String) (_pfx : Option String)
    (send : Except String ListObjectsV2Response) : Except String (List String) × Nat :=
  match send with
  | .error err => (.error err, 1)
  | .ok response => (.ok ((response.contents.getD []).filterMap S3Object.key), 1)

/-- aws_s3.rs `AwsS3Provider::get_object`: one fetch, body collected to
bytes, errors propagated unmodified. -/
def AwsS3Provider.get_object (_provider : AwsS3Provider) (_bucket _key : String)
    (send : Except String (List UInt8)) : Except String (List UInt8) × Nat :=
  match send with
  | .error err => (.error err, 1)
  | .ok bytes => (.ok bytes, 1)

/-- aws_s3.rs `StorageProvider::provider_name` for `AwsS3Provider`. -/
def AwsS3Provider.provider_name (_provider : AwsS3Provider) : String :=
  "AWS S3"

/-- config.rs `OcvConfig`, restricted to the fields the storage factory
reads (the archive/network/proposals fields never reach this layer). -/
structure OcvConfig where
  bucket_name : String
  storage_provider : String
  gcs_project_id : Option String
  gcs_service_account_key_path : Option String
  aws_region : String
deriving DecidableEq

/-- The constructed backend instance behind `Arc<dyn StorageProvider>`. -/
inductive StorageHandle where
  | aws (provider : AwsS3Provider)
  | gcs (provider : GcsProvider)
deriving DecidableEq

/-- One structured error per `anyhow!` call site of factory.rs. -/
inductive FactoryError where
  | unsupportedProvider (selector : String)
  | missingGcsProjectId
deriving DecidableEq

/-- The exact `anyhow!` format string of each factory.rs error site. -/
def FactoryError.message : FactoryError → String
  | .unsupportedProvider selector =>
    "Unsupported storage provider: " ++ selector ++ ". Supported providers: aws, gcs"
  | .missingGcsProjectId => "GCS_PROJECT_ID required when using GCS provider"

/-- Modelled from the spec: §7 taxonomy.  Both factory failure sites are
pre-network configuration-validation errors. -/
def FactoryError.isConfigurationErrorClass : FactoryError → Bool :=
  fun _ => true

/-- factory.rs `create_storage_provider`: case-sensitive match on the
selector string; the GCS arm requires the project id before any
construction; `discovery` is consumed only by GCS construction. -/
def create_storage_provider (config : OcvConfig) (discovery : Except String Unit) :
    Except FactoryError StorageHandle :=
  if config.storage_provider = "aws" then
    .ok (.aws (AwsS3Provider.new config.aws_region))
  else if config.storage_provider = "gcs" then
    match config.gcs_project_id with
    | none => .error .missingGcsProjectId
    | some pid =>
      .ok (.gcs (GcsProvider.new pid config.gcs_service_account_key_path discovery))
  else
    .error (.unsupportedProvider config.storage_provider)

/-- The item names of one parsed listing page, in response order. -/
def pageNames (response : GcsListResponse) : List String :=
  (response.items.getD []).map GcsObject.name

/-- A page oracle serving a finite script of successful pages: the i-th
request receives HTTP 200 with the i-th parsed body. -/
def pagesOfList (ps : List GcsListResponse) : Nat → PageOutcome :=
  fun i =>
    match ps.get? i with
    | some response => .response 200 (.ok response)
    | none => .sendFailure "no further scripted responses"

/-- The keys present in an S3 listing, in response order, skipping
entries whose key is absent — an independent spelling of what the
`filter_map` in aws_s3.rs computes. -/
def presentKeys : List S3Object → List String
  | [] => []
  | obj :: rest =>
    match obj.key with
    | some k => k :: presentKeys rest
    | none => presentKeys rest

/-! ## String-containment lemmas -/

theorem listHasPre_append (p t : List Char) : listHasPre p (p ++ t) = true := by
  induction p with
  | nil => rfl
  | cons a as ih => simp [listHasPre, ih]

theorem listHasPre_self (p : List Char) : listHasPre p p = true := by
  simpa using listHasPre_append p []

theorem listHasSub_of_hasPre (p s : List Char) (h : listHasPre p s = true) :
    listHasSub p s = true := by
  cases s with
  | nil => simpa [listHasSub] using h
  | cons b bs => simp [listHasSub, h]

theorem listHasSub_append_left (q p s : List Char) (h : listHasSub p s = true) :
    listHasSub p (q ++ s) = true := by
  induction q with
  | nil => simpa using h
  | cons a as ih => simp [listHasSub, ih]

theorem strContains_app_left (pat y : String) : strContains (pat ++ y) pat = true := by
  unfold strContains
  rw [String.data_append]
  exact listHasSub_of_hasPre _ _ (listHasPre_append pat.data y.data)

theorem strContains_app_right (x pat : String) : strContains (x ++ pat) pat = true := by
  unfold strContains
  rw [String.data_append]
  exact listHasSub_append_left _ _ _ (listHasSub_of_hasPre _ _ (listHasPre_self pat.data))

theorem strContains_sandwich (x pat y : String) : strContains (x ++ (pat ++ y)) pat = true := by
  unfold strContains
  rw [String.data_append, String.data_append]
  exact listHasSub_append_left _ _ _ (listHasSub_of_hasPre _ _ (listHasPre_append pat.data y.data))

theorem strContains_mid (x l1 pat y : String) :
    strContains (x ++ (l1 ++ (pat ++ y))) pat = true := by
  rw [← String.append_assoc x l1 (pat ++ y)]
  exact strContains_sandwich (x ++ l1) pat y

/-! ## One-step unfolding lemmas for the anonymous listing loop -/

theorem anonListLoop_step (pages : Nat → PageOutcome) (bucket : String)
    (c : Nat) (tok : Option String) (acc : List String) (r : GcsListResponse)
    (h : pages c = .response 200 (.ok r)) :
    anonListLoop pages bucket c tok acc =
      if r.next_page_token.isNone = true ∨ 10 ≤ c + 1 then
        (.ok (acc ++ pageNames r), c + 1)
      else
        anonListLoop pages bucket (c + 1) r.next_page_token (acc ++ pageNames r) := by
  rw [anonListLoop, h]
  cases hi : r.items with
  | none => simp [pageNames, hi, isClientError]
  | some items => simp [pageNames, hi, isClientError]

theorem anonListLoop_clientError (pages : Nat → PageOutcome) (bucket : String)
    (c : Nat) (tok : Option String) (acc : List String)
    (status : Nat) (body : Except String GcsListResponse)
    (h : pages c = .response status body) (hce : isClientError status = true) :
    anonListLoop pages bucket c tok acc =
      if status == 401 || status == 403 then
        (.error (.listAuthRequired bucket), c + 1)
      else if status == 404 then
        (.error (.listBucketNotFound bucket), c + 1)
      else
        (.error (.listHttpError bucket status), c + 1) := by
  rw [anonListLoop, h]
  simp [hce]

/-! ## Full runs of the anonymous listing loop -/

theorem anonListLoop_pages (pages : Nat → PageOutcome) (bucket : String) :
    ∀ (ps : List GcsListResponse) (c : Nat) (tok : Option String) (acc : List String)
      (hn : ps ≠ []) (_hc : c + ps.length ≤ 10)
      (hp : ∀ i (h : i < ps.length), pages (c + i) = .response 200 (.ok (ps.get ⟨i, h⟩)))
      (hmid : ∀ i (h : i + 1 < ps.length),
        ((ps.get ⟨i, Nat.lt_of_succ_lt h⟩).next_page_token).isSome = true)
      (_hlast : (ps.getLast hn).next_page_token = none),
      anonListLoop pages bucket c tok acc =
        (.ok (acc ++ (ps.map pageNames).flatten), c + ps.length) := by
  intro ps
  induction ps with
  | nil => intro c tok acc hn; exact absurd rfl hn
  | cons r rest ih =>
    intro c tok acc hn hc hp hmid hlast
    have h0 : pages c = .response 200 (.ok r) := by
      have h := hp 0 (by simp)
      simpa using h
    rw [anonListLoop_step pages bucket c tok acc r h0]
    cases rest with
    | nil =>
      have hr : r.next_page_token = none := by simpa [List.getLast] using hlast
      rw [if_pos (Or.inl (by simp [hr]))]
      simp
    | cons r2 rest' =>
      have hsome : (r.next_page_token).isSome = true := by
        have h := hmid 0 (by simp)
        simpa using h
      have hcond : ¬(r.next_page_token.isNone = true ∨ 10 ≤ c + 1) := by
        rintro (h | h)
        · simp [Option.isNone_iff_eq_none] at h
          rw [h] at hsome
          simp at hsome
        · simp at hc
          omega
      rw [if_neg hcond]
      have hrec := ih (c + 1) r.next_page_token (acc ++ pageNames r)
        (by simp) (by simp at hc ⊢; omega)
        (by
          intro i hlt
          have h2 : i + 1 < (r :: r2 :: rest').length := by
            simpa using Nat.succ_lt_succ hlt
          have h := hp (i + 1) h2
          have harith : c + (i + 1) = c + 1 + i := by omega
          rw [harith] at h
          exact h)
        (by
          intro i hlt
          have h2 : (i + 1) + 1 < (r :: r2 :: rest').length := by
            simpa using Nat.succ_lt_succ hlt
          have h := hmid (i + 1) h2
          exact h)
        (by
          have h := List.getLast_cons (l := r2 :: rest') (a := r) (by simp)
          rw [← h]
          exact hlast)
      rw [hrec]
      simp [List.append_assoc]
      omega

theorem anonListLoop_cap (pages : Nat → PageOutcome) (bucket : String)
    (rs : Nat → GcsListResponse)
    (hp : ∀ i, pages i = .response 200 (.ok (rs i)))
    (ht : ∀ i, ((rs i).next_page_token).isSome = true) :
    ∀ (k c : Nat) (tok : Option String) (acc : List String), c + k = 10 → 0 < k →
      anonListLoop pages bucket c tok acc =
        (.ok (acc ++ ((List.range k).map (fun j => pageNames (rs (c + j)))).flatten), 10) := by
  intro k
  induction k with
  | zero => intro c tok acc _ hpos; exact absurd hpos (by omega)
  | succ k ih =>
    intro c tok acc hck _
    rw [anonListLoop_step pages bucket c tok acc (rs c) (hp c)]
    rcases Nat.eq_zero_or_pos k with hk | hk
    · subst hk
      rw [if_pos (Or.inr (by omega))]
      have hc9 : c = 9 := by omega
      subst hc9
      rw [show List.range 1 = [0] from rfl]
      simp
    · have hcond : ¬((rs c).next_page_token.isNone = true ∨ 10 ≤ c + 1) := by
        rintro (h | h)
        · rw [Option.isNone_iff_eq_none] at h
          have hs := ht c
          rw [h] at hs
          simp at hs
        · omega
      rw [if_neg hcond]
      rw [ih (c + 1) (rs c).next_page_token (acc ++ pageNames (rs c)) (by omega) hk]
      have hshift : (List.range k).map (fun j => pageNames (rs (c + 1 + j))) =
          (List.range k).map ((fun j => pageNames (rs (c + j))) ∘ Nat.succ) := by
        apply List.map_congr_left
        intro j _
        show pageNames (rs (c + 1 + j)) = pageNames (rs (c + (j + 1)))
        have harith : c + 1 + j = c + (j + 1) := by omega
        rw [harith]
      rw [hshift, List.range_succ_eq_map, List.map_cons, List.map_map, List.flatten_cons,
        List.append_assoc]
      simp

/-- C2: for a script of n successful pages (n at most 10) whose first
n-1 responses carry a continuation token and whose last does not, the
anonymous-mode listing issues exactly n page requests and returns the
concatenation of the pages' item names in response order (no
deduplication or sorting: the result is literally the flattened map). -/
theorem anon_listing_pagination_exact (pid bucket : String) (hb : bucket.isEmpty = false)
    (pfx : Option String) (authList : Except String (Option (List GcsObject)))
    (ps : List GcsListResponse) (hn : ps ≠ []) (hle : ps.length ≤ 10)
    (hmid : ∀ i (h : i + 1 < ps.length),
      ((ps.get ⟨i, Nat.lt_of_succ_lt h⟩).next_page_token).isSome = true)
    (hlast : (ps.getLast hn).next_page_token = none) :
    GcsProvider.list_objects { client := .Anonymous, project_id := pid } bucket pfx authList
        (pagesOfList ps) = (.ok ((ps.map pageNames).flatten), ps.length) := by
  have h := anonListLoop_pages (pagesOfList ps) bucket ps 0 none [] hn (by omega)
    (by
      intro i hlt
      simp [pagesOfList, List.getElem?_eq_getElem hlt])
    hmid hlast
  simpa [GcsProvider.list_objects, hb] using h

/-- C2 witness: the spec's two chained pages (token "token123" then no
token) yield both pages' items in order after exactly two requests. -/
theorem anon_listing_pagination_exact_witness :
    GcsProvider.list_objects { client := .Anonymous, project_id := "test-project-123" }
        "test-bucket" none (.ok none)
        (pagesOfList
          [{ items := some [{ name := "object1.json" }], next_page_token := some "token123" },
           { items := some [{ name := "object2.json" }], next_page_token := none }]) =
      (.ok ["object1.json", "object2.json"], 2) := by
  have h := anon_listing_pagination_exact "test-project-123" "test-bucket" (by decide) none
    (.ok none)
    [{ items := some [{ name := "object1.json" }], next_page_token := some "token123" },
     { items := some [{ name := "object2.json" }], next_page_token := none }]
    (by decide) (by decide)
    (by
      intro i h
      match i, h with
      | 0, _ => rfl)
    rfl
  exact h

/-- C3: a remote store that answers every page request successfully and
always returns a continuation token makes the anonymous-mode listing
stop after exactly ten page requests, returning the ten pages'
accumulated item names as a successful (non-error) result. -/
theorem anon_listing_cap_ten (pid bucket : String) (hb : bucket.isEmpty = false)
    (pfx : Option String) (authList : Except String (Option (List GcsObject)))
    (rs : Nat → GcsListResponse)
    (ht : ∀ i, ((rs i).next_page_token).isSome = true) :
    GcsProvider.list_objects { client := .Anonymous, project_id := pid } bucket pfx authList
        (fun i => .response 200 (.ok (rs i))) =
      (.ok (((List.range 10).map (fun j => pageNames (rs j))).flatten), 10) := by
  have h := anonListLoop_cap (fun i => .response 200 (.ok (rs i))) bucket rs
    (fun _ => rfl) ht 10 0 none [] rfl (by omega)
  simpa [GcsProvider.list_objects, hb] using h

/-- C3 witness: a store that always returns one item and a token stops
after ten requests with the ten accumulated items. -/
theorem anon_listing_cap_ten_witness :
    GcsProvider.list_objects { client := .Anonymous, project_id := "test-project-123" }
        "test-bucket" none (.ok none)
        (fun _ => .response 200
          (.ok { items := some [{ name := "o" }], next_page_token := some "t" })) =
      (.ok ["o", "o", "o", "o", "o", "o", "o", "o", "o", "o"], 10) := by
  have h := anon_listing_cap_ten "test-project-123" "test-bucket" (by decide) none (.ok none)
    (fun _ => { items := some [{ name := "o" }], next_page_token := some "t" })
    (fun _ => rfl)
  exact h

/-! ## Message-content lemmas -/

theorem natBeqFalseOfNe {a b : Nat} (h : a ≠ b) : (a == b) = false := by
  cases hx : a == b
  · rfl
  · exact absurd (eq_of_beq hx) h

theorem listAuthRequired_msg_projectId (bucket : String) :
    strContains (GcsError.listAuthRequired bucket).message "GCS_PROJECT_ID" = true := by
  have hL : ("' requires authentication. Please set GCS_PROJECT_ID and optionally GCS_SERVICE_ACCOUNT_KEY_PATH environment variables." : String) =
      "' requires authentication. Please set " ++
        ("GCS_PROJECT_ID" ++ " and optionally GCS_SERVICE_ACCOUNT_KEY_PATH environment variables.") := by
    decide
  show strContains ("GCS bucket '" ++ bucket ++ "' requires authentication. Please set GCS_PROJECT_ID and optionally GCS_SERVICE_ACCOUNT_KEY_PATH environment variables.") "GCS_PROJECT_ID" = true
  rw [hL]
  exact strContains_mid _ _ _ _

theorem listAuthRequired_msg_keyPath (bucket : String) :
    strContains (GcsError.listAuthRequired bucket).message "GCS_SERVICE_ACCOUNT_KEY_PATH" = true := by
  have hL : ("' requires authentication. Please set GCS_PROJECT_ID and optionally GCS_SERVICE_ACCOUNT_KEY_PATH environment variables." : String) =
      "' requires authentication. Please set GCS_PROJECT_ID and optionally " ++
        ("GCS_SERVICE_ACCOUNT_KEY_PATH" ++ " environment variables.") := by
    decide
  show strContains ("GCS bucket '" ++ bucket ++ "' requires authentication. Please set GCS_PROJECT_ID and optionally GCS_SERVICE_ACCOUNT_KEY_PATH environment variables.") "GCS_SERVICE_ACCOUNT_KEY_PATH" = true
  rw [hL]
  exact strContains_mid _ _ _ _

theorem listBucketNotFound_msg_bucket (bucket : String) :
    strContains (GcsError.listBucketNotFound bucket).message bucket = true := by
  show strContains ("GCS bucket '" ++ bucket ++ "' not found. Please check the bucket name and project configuration.") bucket = true
  rw [String.append_assoc]
  exact strContains_sandwich _ _ _

theorem listBucketNotFound_msg_projectConfig (bucket : String) :
    strContains (GcsError.listBucketNotFound bucket).message "project configuration" = true := by
  have hL : ("' not found. Please check the bucket name and project configuration." : String) =
      "' not found. Please check the bucket name and " ++ ("project configuration" ++ ".") := by
    decide
  show strContains ("GCS bucket '" ++ bucket ++ "' not found. Please check the bucket name and project configuration.") "project configuration" = true
  rw [hL]
  exact strContains_mid _ _ _ _

theorem listHttpError_msg_status (bucket : String) (status : Nat) :
    strContains (GcsError.listHttpError bucket status).message (statusDisplay status) = true := by
  show strContains ("Failed to access GCS bucket '" ++ bucket ++ "': HTTP " ++ statusDisplay status)
      (statusDisplay status) = true
  exact strContains_app_right _ _

theorem getHttpError_msg_status (key bucket : String) (status : Nat) :
    strContains (GcsError.getHttpError key bucket status).message (statusDisplay status) = true := by
  show strContains ("Failed to access GCS object '" ++ key ++ "' in bucket '" ++ bucket ++ "': HTTP " ++ statusDisplay status) (statusDisplay status) = true
  exact strContains_app_right _ _

theorem gcs_list_anon_unfold (pid bucket : String) (hb : bucket.isEmpty = false)
    (pfx : Option String) (authList : Except String (Option (List GcsObject)))
    (pages : Nat → PageOutcome) :
    GcsProvider.list_objects { client := .Anonymous, project_id := pid } bucket pfx authList
        pages = anonListLoop pages bucket 0 none [] := by
  simp [GcsProvider.list_objects, hb]

/-! ## C4: classification of client-error statuses on anonymous listing -/

/-- C4 (amended): in anonymous mode, a 401 or 403 listing page yields
the AccessDenied-class error whose message references the GCS_PROJECT_ID
and GCS_SERVICE_ACCOUNT_KEY_PATH configuration inputs; a 404 yields the
NotFound-class error whose message names the bucket and refers to the
project configuration (the project identifier itself appears only in
the logged warning, not in the returned error message); any other 4xx
yields the generic error carrying the raw HTTP status. -/
theorem anon_list_clientError_classification (pid bucket : String) (hb : bucket.isEmpty = false)
    (pfx : Option String) (authList : Except String (Option (List GcsObject)))
    (pages : Nat → PageOutcome) (status : Nat) (body : Except String GcsListResponse)
    (h0 : pages 0 = .response status body) (hce : isClientError status = true) :
    (status = 401 ∨ status = 403 →
      GcsProvider.list_objects { client := .Anonymous, project_id := pid } bucket pfx authList
          pages = (.error (.listAuthRequired bucket), 1) ∧
        (GcsError.listAuthRequired bucket).isAccessDeniedClass = true ∧
        strContains (GcsError.listAuthRequired bucket).message "GCS_PROJECT_ID" = true ∧
        strContains (GcsError.listAuthRequired bucket).message
          "GCS_SERVICE_ACCOUNT_KEY_PATH" = true) ∧
    (status = 404 →
      GcsProvider.list_objects { client := .Anonymous, project_id := pid } bucket pfx authList
          pages = (.error (.listBucketNotFound bucket), 1) ∧
        (GcsError.listBucketNotFound bucket).isNotFoundClass = true ∧
        strContains (GcsError.listBucketNotFound bucket).message bucket = true ∧
        strContains (GcsError.listBucketNotFound bucket).message "project configuration" = true) ∧
    (status ≠ 401 → status ≠ 403 → status ≠ 404 →
      GcsProvider.list_objects { client := .Anonymous, project_id := pid } bucket pfx authList
          pages = (.error (.listHttpError bucket status), 1) ∧
        strContains (GcsError.listHttpError bucket status).message (statusDisplay status) = true) := by
  have hloop := gcs_list_anon_unfold pid bucket hb pfx authList pages
  have hstep := anonListLoop_clientError pages bucket 0 none [] status body h0 hce
  refine ⟨?_, ?_, ?_⟩
  · rintro (h | h) <;> subst h <;>
      exact ⟨by rw [hloop, hstep]; rfl, rfl,
        listAuthRequired_msg_projectId bucket, listAuthRequired_msg_keyPath bucket⟩
  · intro h
    subst h
    exact ⟨by rw [hloop, hstep]; rfl, rfl,
      listBucketNotFound_msg_bucket bucket, listBucketNotFound_msg_projectConfig bucket⟩
  · intro h1 h2 h3
    refine ⟨?_, listHttpError_msg_status bucket status⟩
    rw [hloop, hstep, natBeqFalseOfNe h1, natBeqFalseOfNe h2, natBeqFalseOfNe h3]
    rfl

/-- C4 counterexample: with project id "test-project-123" and bucket
"b", a 404 listing response yields an error whose message does not
contain the project identifier; the claim that the 404 error message
names the project fails on the code (the project id is only logged). -/
theorem anon_list_404_no_project_in_message :
    GcsProvider.list_objects { client := .Anonymous, project_id := "test-project-123" } "b" none
        (.ok none) (fun _ => .response 404 (.error "parse err")) =
      (.error (.listBucketNotFound "b"), 1) ∧
    strContains (GcsError.listBucketNotFound "b").message "b" = true ∧
    strContains (GcsError.listBucketNotFound "b").message "test-project-123" = false := by
  refine ⟨?_, by decide, by decide⟩
  rw [gcs_list_anon_unfold "test-project-123" "b" (by decide) none (.ok none) _,
    anonListLoop_clientError _ "b" 0 none [] 404 (.error "parse err") rfl (by decide)]
  rfl

/-- C4 witness: the amended theorem applied at status 404 on bucket
"test-bucket". -/
theorem anon_list_clientError_classification_witness :
    GcsProvider.list_objects { client := .Anonymous, project_id := "p" } "test-bucket" none
        (.ok none) (fun _ => .response 404 (.error "e")) =
      (.error (.listBucketNotFound "test-bucket"), 1) ∧
    (GcsError.listBucketNotFound "test-bucket").isNotFoundClass = true ∧
    strContains (GcsError.listBucketNotFound "test-bucket").message "test-bucket" = true ∧
    strContains (GcsError.listBucketNotFound "test-bucket").message
      "project configuration" = true :=
  (anon_list_clientError_classification "p" "test-bucket" (by decide) none (.ok none)
    (fun _ => .response 404 (.error "e")) 404 (.error "e") rfl (by decide)).2.1 rfl

/-! ## C5: get_object status handling -/

/-- C5 counterexample: a 404 response to an anonymous get_object yields
the generic access error carrying HTTP 404 — which is not the
NotFound-class error the claim requires (gcs.rs has no 404-specific
branch in get_object, unlike list_objects). -/
theorem get_object_404_not_notfound_class :
    GcsProvider.get_object { client := .Anonymous, project_id := "p" } "b" "k" (.ok [])
        (.response 404 (.error "e")) = (.error (.getHttpError "k" "b" 404), 1) ∧
    (GcsError.getHttpError "k" "b" 404).isNotFoundClass = false := by
  exact ⟨rfl, rfl⟩

/-- C5 (amended): anonymous-mode get_object returns the response body's
bytes unmodified on a 200 response, classifies 401/403 as the
AccessDenied-class error, and classifies any other 4xx — including
404 — as the generic access error carrying the raw HTTP status (there
is no distinct NotFound classification); authenticated-mode get_object
likewise returns the downloaded bytes unmodified. -/
theorem get_object_contract (pid bucket key : String) (hb : bucket.isEmpty = false)
    (authGet : Except String (List UInt8)) :
    (∀ bytes : List UInt8,
      GcsProvider.get_object { client := .Anonymous, project_id := pid } bucket key authGet
          (.response 200 (.ok bytes)) = (.ok bytes, 1)) ∧
    (∀ (status : Nat) (body : Except String (List UInt8)), status = 401 ∨ status = 403 →
      GcsProvider.get_object { client := .Anonymous, project_id := pid } bucket key authGet
          (.response status body) = (.error (.getAuthRequired key bucket), 1) ∧
        (GcsError.getAuthRequired key bucket).isAccessDeniedClass = true) ∧
    (∀ (status : Nat) (body : Except String (List UInt8)),
        isClientError status = true → status ≠ 401 → status ≠ 403 →
      GcsProvider.get_object { client := .Anonymous, project_id := pid } bucket key authGet
          (.response status body) = (.error (.getHttpError key bucket status), 1) ∧
        strContains (GcsError.getHttpError key bucket status).message (statusDisplay status) =
          true ∧
        (GcsError.getHttpError key bucket status).isNotFoundClass = false) ∧
    (∀ bytes : List UInt8,
      GcsProvider.get_object { client := .Authenticated, project_id := pid } bucket key
          (.ok bytes) (.sendFailure "unused") = (.ok bytes, 1)) := by
  refine ⟨?_, ?_, ?_, ?_⟩
  · intro bytes
    simp [GcsProvider.get_object, hb, isClientError]
  · rintro status body (h | h) <;> subst h <;>
      exact ⟨by simp [GcsProvider.get_object, hb, isClientError], rfl⟩
  · intro status body hce h1 h2
    refine ⟨?_, getHttpError_msg_status key bucket status, rfl⟩
    simp [GcsProvider.get_object, hb, hce, natBeqFalseOfNe h1, natBeqFalseOfNe h2]
  · intro bytes
    simp [GcsProvider.get_object, hb]

/-- C5 witness: the amended theorem applied at a 200 response carrying
one byte. -/
theorem get_object_contract_witness :
    GcsProvider.get_object { client := .Anonymous, project_id := "p" } "b" "k" (.ok [])
        (.response 200 (.ok [(7 : UInt8)])) = (.ok [(7 : UInt8)], 1) :=
  (get_object_contract "p" "b" "k" (by decide) (.ok [])).1 [(7 : UInt8)]

/-! ## C1: empty-bucket validation -/

/-- C1 counterexample: the AWS S3 adapter performs no empty-bucket
validation — with an empty bucket name and a successful (empty) SDK
response, list_objects returns Ok after issuing one request, not a
ConfigurationError-class error with zero network calls. -/
theorem aws_list_emptyBucket_no_validation :
    (AwsS3Provider.list_objects (AwsS3Provider.new "us-west-2") "" none
        (.ok { contents := some [] })).1 = .ok [] ∧
    (AwsS3Provider.list_objects (AwsS3Provider.new "us-west-2") "" none
        (.ok { contents := some [] })).2 ≠ 0 := by
  exact ⟨rfl, by decide⟩

/-- C1 (amended): the GCS adapter's list_objects on an empty-string
bucket returns the ConfigurationError-class empty-bucket error with
zero network requests, in both access modes; the AWS S3 adapter
performs no empty-bucket validation and always issues its SDK request
(one request, whatever the bucket). -/
theorem emptyBucket_validation_gcs_only :
    (∀ (provider : GcsProvider) (pfx : Option String)
        (authList : Except String (Option (List GcsObject))) (pages : Nat → PageOutcome),
      GcsProvider.list_objects provider "" pfx authList pages =
        (.error .emptyBucketName, 0)) ∧
    GcsError.emptyBucketName.isConfigurationErrorClass = true ∧
    (∀ (region bucket : String) (pfx : Option String)
        (send : Except String ListObjectsV2Response),
      (AwsS3Provider.list_objects (AwsS3Provider.new region) bucket pfx send).2 = 1) := by
  refine ⟨?_, rfl, ?_⟩
  · intro provider pfx authList pages
    rfl
  · intro region bucket pfx send
    cases send <;> rfl

/-! ## C6: construction totality and fixed access mode -/

/-- C6: GcsProvider construction is total over credential-discovery
outcomes (it returns a handle for every outcome, with or without a
credential-file path); a failed discovery fixes the handle's mode to
Anonymous (a successful one to Authenticated); and every subsequent
list_objects/get_object call on a failed-discovery handle behaves
exactly as on the plain Anonymous handle — the mode is read from the
stored client, never re-evaluated. -/
theorem construction_never_fails_mode_fixed (pid : String) (kp : Option String) (e : String) :
    (∀ d : Except String Unit, (GcsProvider.new pid kp d).project_id = pid) ∧
    (GcsProvider.new pid kp (.error e)).client = .Anonymous ∧
    (GcsProvider.new pid kp (.ok ())).client = .Authenticated ∧
    (∀ (bucket : String) (pfx : Option String)
        (authList : Except String (Option (List GcsObject))) (pages : Nat → PageOutcome),
      GcsProvider.list_objects (GcsProvider.new pid kp (.error e)) bucket pfx authList pages =
        GcsProvider.list_objects { client := .Anonymous, project_id := pid } bucket pfx
          authList pages) ∧
    (∀ (bucket key : String) (authGet : Except String (List UInt8)) (anonGet : GetOutcome),
      GcsProvider.get_object (GcsProvider.new pid kp (.error e)) bucket key authGet anonGet =
        GcsProvider.get_object { client := .Anonymous, project_id := pid } bucket key authGet
          anonGet) := by
  cases kp <;>
    exact ⟨fun d => by cases d <;> rfl, rfl, rfl, fun _ _ _ _ => rfl, fun _ _ _ _ => rfl⟩

/-! ## C7 and C8: the provider factory -/

/-- C7: any selector other than exactly "aws" or "gcs" (matching is
case-sensitive) makes create_storage_provider fail with the
ConfigurationError-class unsupported-provider error, whose text
contains "Unsupported storage provider: <selector>" and
"Supported providers: aws, gcs". -/
theorem unsupported_selector_config_error (config : OcvConfig) (d : Except String Unit)
    (h1 : config.storage_provider ≠ "aws") (h2 : config.storage_provider ≠ "gcs") :
    create_storage_provider config d =
        .error (.unsupportedProvider config.storage_provider) ∧
      (FactoryError.unsupportedProvider config.storage_provider).isConfigurationErrorClass =
        true ∧
      strContains (FactoryError.unsupportedProvider config.storage_provider).message
        ("Unsupported storage provider: " ++ config.storage_provider) = true ∧
      strContains (FactoryError.unsupportedProvider config.storage_provider).message
        "Supported providers: aws, gcs" = true := by
  refine ⟨?_, rfl, ?_, ?_⟩
  · simp [create_storage_provider, h1, h2]
  · show strContains
        (("Unsupported storage provider: " ++ config.storage_provider) ++
          ". Supported providers: aws, gcs")
        ("Unsupported storage provider: " ++ config.storage_provider) = true
    exact strContains_app_left _ _
  · have hsp : (". Supported providers: aws, gcs" : String) =
        ". " ++ "Supported providers: aws, gcs" := by decide
    show strContains
        (("Unsupported storage provider: " ++ config.storage_provider) ++
          ". Supported providers: aws, gcs")
        "Supported providers: aws, gcs" = true
    rw [hsp, ← String.append_assoc]
    exact strContains_app_right _ _

/-- C7 witness: the theorem applied at selector "GCS" — the wrong-case
selector is rejected like any unrecognized value. -/
theorem unsupported_selector_config_error_witness :
    create_storage_provider
        { bucket_name := "test-bucket", storage_provider := "GCS",
          gcs_project_id := some "test-project",
          gcs_service_account_key_path := none, aws_region := "us-west-2" }
        (.error "no creds") = .error (.unsupportedProvider "GCS") ∧
      (FactoryError.unsupportedProvider "GCS").isConfigurationErrorClass = true ∧
      strContains (FactoryError.unsupportedProvider "GCS").message
        ("Unsupported storage provider: " ++ "GCS") = true ∧
      strContains (FactoryError.unsupportedProvider "GCS").message
        "Supported providers: aws, gcs" = true :=
  unsupported_selector_config_error
    { bucket_name := "test-bucket", storage_provider := "GCS",
      gcs_project_id := some "test-project",
      gcs_service_account_key_path := none, aws_region := "us-west-2" }
    (.error "no creds") (by decide) (by decide)

/-- C8: selecting "gcs" with no project identifier fails with the
ConfigurationError-class missing-project-id error, and the result does
not depend on the discovery outcome — no GCS construction (and hence no
credential discovery or network activity) is attempted. -/
theorem gcs_selector_requires_project_id (config : OcvConfig) (d d' : Except String Unit)
    (h : config.storage_provider = "gcs") (h2 : config.gcs_project_id = none) :
    create_storage_provider config d = .error .missingGcsProjectId ∧
      create_storage_provider config d = create_storage_provider config d' ∧
      FactoryError.missingGcsProjectId.isConfigurationErrorClass = true := by
  have hx : ∀ dd : Except String Unit,
      create_storage_provider config dd = .error .missingGcsProjectId := by
    intro dd
    simp [create_storage_provider, h, h2]
  exact ⟨hx d, (hx d).trans (hx d').symm, rfl⟩

/-- C8 witness: the theorem applied to a config with selector "gcs" and
no project id, under two different discovery outcomes. -/
theorem gcs_selector_requires_project_id_witness :
    create_storage_provider
        { bucket_name := "test-bucket", storage_provider := "gcs", gcs_project_id := none,
          gcs_service_account_key_path := none, aws_region := "us-west-2" }
        (.ok ()) = .error .missingGcsProjectId ∧
      create_storage_provider
          { bucket_name := "test-bucket", storage_provider := "gcs", gcs_project_id := none,
            gcs_service_account_key_path := none, aws_region := "us-west-2" }
          (.ok ()) =
        create_storage_provider
          { bucket_name := "test-bucket", storage_provider := "gcs", gcs_project_id := none,
            gcs_service_account_key_path := none, aws_region := "us-west-2" }
          (.error "no creds") ∧
      FactoryError.missingGcsProjectId.isConfigurationErrorClass = true :=
  gcs_selector_requires_project_id
    { bucket_name := "test-bucket", storage_provider := "gcs", gcs_project_id := none,
      gcs_service_account_key_path := none, aws_region := "us-west-2" }
    (.ok ()) (.error "no creds") rfl rfl

/-! ## C9: determinism over a fixed remote store -/

/-- C9: all four operations are pure functions of the handle, the
arguments and the remote-store oracle: the Rust provider structs hold no
mutable state and no cache (their fields are immutable clients fixed at
construction), so the embedding is stateless and two invocations with
identical arguments against the same remote-store responses are
definitionally the same computation, yielding identical results. -/
theorem repeated_calls_deterministic (gp : GcsProvider) (ap : AwsS3Provider)
    (bucket key : String) (pfx : Option String)
    (authList : Except String (Option (List GcsObject))) (pages : Nat → PageOutcome)
    (authGet : Except String (List UInt8)) (anonGet : GetOutcome)
    (s3list : Except String ListObjectsV2Response) (s3get : Except String (List UInt8)) :
    GcsProvider.list_objects gp bucket pfx authList pages =
        GcsProvider.list_objects gp bucket pfx authList pages ∧
      GcsProvider.get_object gp bucket key authGet anonGet =
        GcsProvider.get_object gp bucket key authGet anonGet ∧
      AwsS3Provider.list_objects ap bucket pfx s3list =
        AwsS3Provider.list_objects ap bucket pfx s3list ∧
      AwsS3Provider.get_object ap bucket key s3get =
        AwsS3Provider.get_object ap bucket key s3get :=
  ⟨rfl, rfl, rfl, rfl⟩

/-! ## C10: AWS listing silently drops entries without a key -/

/-- C10: for any S3 listing response, the AWS adapter returns exactly
the keys present in the response, in response order — entries whose key
field is absent are silently skipped, with a successful result and no
indication that entries were dropped. -/
theorem aws_list_drops_absent_keys (region bucket : String) (pfx : Option String)
    (objs : List S3Object) :
    AwsS3Provider.list_objects (AwsS3Provider.new region) bucket pfx
        (.ok { contents := some objs }) = (.ok (presentKeys objs), 1) := by
  have h : objs.filterMap S3Object.key = presentKeys objs := by
    induction objs with
    | nil => rfl
    | cons o rest ih => cases ho : o.key <;> simp [presentKeys, List.filterMap_cons, ho, ih]
  simp [AwsS3Provider.list_objects, h]
